import Mathlib

/-!
Shallow embedding of the pandabear schema-validation engine
(src/pandabear: `column_checks.py`, `type_checking.py`, `model_components.py`,
`model.py`) and proofs about the claims of its specification.

Modelling conventions:
* pandas Series / Index objects are a `PSeries` record (name, runtime class,
  dtype, element list); a DataFrame is a column list plus a (multi-)index.
* Python values appearing in columns are `PValue` (ints, strings, bools, null).
* Fallible Python code returns `Except VErr`; each Python exception class is a
  `VErr` constructor.  Where two different sites raise the same Python
  exception class with different messages, the constructor carries a short tag
  naming the site.
* Python truthiness of `None`/`bool`/`int` is modelled explicitly
  (`optTruthy`, `intTruthy`); `~bool` is the bitwise not of Python, an `Int`.
* Regular-expression patterns are modelled as literal strings: `re.match(p, s)`
  anchors at the start, so for a metacharacter-free pattern it succeeds exactly
  when `p` is a prefix of `s`; `re.search` (used by `df.filter(regex=...)`)
  succeeds exactly when `p` occurs as a substring of `s`.
-/

namespace Pandabear

/-- Runtime class of a pandas series-or-index object (used by `isinstance`
and `type(...) is ...` checks in `type_checking.py`). -/
inductive PdClass
  | series
  | index
  | rangeIndex
  | datetimeIndex
  | categoricalIndex
  deriving DecidableEq, Repr

/-- A pandas dtype, as compared against by `type_checking.py`. -/
inductive Dtype
  | int64
  | float64
  | boolDt
  | objectDt
  | datetime64ns
  | categoryDt (cats : List String)
  | otherDt (tag : String)
  deriving DecidableEq, Repr

/-- A Python type object usable as a schema target type: the keys of
`TYPE_CHECK_MAP` in `type_checking.py`, a `pd.CategoricalDtype` instance, or
any other type object (`otherType`). -/
inductive PType
  | int
  | float
  | bool
  | str
  | npDatetime64
  | pyDatetime
  | pdCategoricalIndex
  | pdCategoricalDtype
  | pdDatetimeIndex
  | pdIndexCls
  | catDtypeInstance (cats : List String)
  | otherType (tag : String)
  deriving DecidableEq, Repr

/-- A Python value stored in a column or index level. -/
inductive PValue
  | int (n : Int)
  | str (s : String)
  | bool (b : Bool)
  | null
  deriving DecidableEq, Repr

/-- A pandas Series or Index: its `.name`, runtime class, `.dtype` and
element values. -/
structure PSeries where
  name : Option String
  cls : PdClass
  dtype : Dtype
  values : List PValue
  deriving DecidableEq, Repr

/-- Python truthiness of an optional bool (`None` is falsy). -/
def optTruthy : Option Bool → Bool
  | none => false
  | some b => b

/-- Python `~b` for a bool `b`: bools are ints, so `~True = -2`, `~False = -1`. -/
def pyBitNot (b : Bool) : Int := if b then -2 else -1

/-- Python truthiness of an int: nonzero is truthy. -/
def intTruthy (i : Int) : Bool := decide (i ≠ 0)

/-- Structural prefix test on character lists (kernel-reducible, unlike the
well-founded-recursive core `String` functions). -/
def charStarts : List Char → List Char → Bool
  | [], _ => true
  | _ :: _, [] => false
  | a :: as_, b :: bs => a == b && charStarts as_ bs

/-- Structural substring test on character lists. -/
def charSub : List Char → List Char → Bool
  | p, [] => p.isEmpty
  | p, s@(_ :: rest) => charStarts p s || charSub p rest

/-- Python `s.startswith(p)`. -/
def strStarts (p s : String) : Bool := charStarts p.data s.data

/-- Python `s.endswith(p)`. -/
def strEnds (p s : String) : Bool := charStarts p.data.reverse s.data.reverse

/-- Python `re.match(pattern, s) is not None`, for a metacharacter-free pattern:
`re.match` anchors at position 0, so it succeeds iff `pattern` is a prefix. -/
def reMatch (pattern s : String) : Bool := strStarts pattern s

/-- Python `re.search(pattern, s) is not None`, for a metacharacter-free pattern:
succeeds iff `pattern` occurs as a substring of `s`. -/
def reSearch (pattern s : String) : Bool := charSub pattern.data s.data

/-- Parse a nonempty digit string (structural model of `int(s)` /
`String.toInt?` on the decimal strings relevant here). -/
def parseNatChars : List Char → Option Nat
  | [] => none
  | cs => go cs 0
where
  go : List Char → Nat → Option Nat
    | [], acc => some acc
    | c :: rest, acc =>
      if c.isDigit then go rest (acc * 10 + (c.toNat - '0'.toNat)) else none

/-- Python `int(s)` over an optional leading minus sign; `none` models
`ValueError`. -/
def strToIntOpt (s : String) : Option Int :=
  match s.data with
  | '-' :: ds => (parseNatChars ds).map fun n => -(n : Int)
  | ds => (parseNatChars ds).map fun n => (n : Int)

/-! ## `exceptions.py`: the error taxonomy.

Messages are dropped; constructors carrying a `tag` distinguish the raise
sites of a single Python exception class.  `attributeError`, `assertionError`,
`typeError`, `keyError` and `valueError` model the corresponding Python
builtin exceptions. -/

inductive VErr
  | missingColumnsError
  | missingIndexError
  | schemaDefinitionError (tag : String)
  | schemaValidationError (tag : String)
  | coersionError
  | columnCheckError (check_name : String)
  | indexCheckError (check_name : String)
  | unsupportedTypeError
  | attributeError
  | assertionError
  | valueError
  | typeError
  | keyError
  deriving DecidableEq, Repr

/-! ## `column_checks.py`: the constraint registry. -/

/-- Parameter of a registered check, as stored on a `Field`. -/
inductive CParam
  | val (v : PValue)
  | list (vs : List PValue)
  | bool (b : Bool)
  deriving DecidableEq, Repr

/-- Elementwise `x >= value` as pandas evaluates it on homogeneous data
(ints by numeric order, strings lexicographically; mismatched kinds and
nulls compare false, as NaN comparisons do). -/
def pvGe : PValue → PValue → Bool
  | .int a, .int b => decide (b ≤ a)
  | .str a, .str b => !decide (a < b)
  | .bool a, .bool b => !a || b == a
  | _, _ => false

def pvGt : PValue → PValue → Bool
  | .int a, .int b => decide (b < a)
  | .str a, .str b => decide (b < a)
  | .bool a, .bool b => a && !b
  | _, _ => false

def pvLe (a b : PValue) : Bool := pvGe b a

def pvLt (a b : PValue) : Bool := pvGt b a

/-- The signature of every function in `CHECK_NAME_FUNCTION_MAP`: series
values and a check parameter, returning a same-length boolean mask. -/
abbrev CheckFn := List PValue → CParam → List Bool

def series_greater_equal : CheckFn := fun series value =>
  series.map fun x => match value with | .val v => pvGe x v | _ => false

def series_greater : CheckFn := fun series value =>
  series.map fun x => match value with | .val v => pvGt x v | _ => false

def series_less_equal : CheckFn := fun series value =>
  series.map fun x => match value with | .val v => pvLe x v | _ => false

def series_less : CheckFn := fun series value =>
  series.map fun x => match value with | .val v => pvLt x v | _ => false

def series_isin : CheckFn := fun series value =>
  series.map fun x => match value with | .list vs => decide (x ∈ vs) | _ => false

/-- Pandas `~series.isin(value)`: elementwise boolean not of `series_isin`. -/
def series_notin : CheckFn := fun series value =>
  series.map fun x => match value with | .list vs => !decide (x ∈ vs) | _ => false

def series_str_contains : CheckFn := fun series value =>
  series.map fun x =>
    match value, x with
    | .val (.str p), .str s => reSearch p s
    | _, _ => false

def series_str_endswith : CheckFn := fun series value =>
  series.map fun x =>
    match value, x with
    | .val (.str p), .str s => strEnds p s
    | _, _ => false

def series_str_startswith : CheckFn := fun series value =>
  series.map fun x =>
    match value, x with
    | .val (.str p), .str s => strStarts p s
    | _, _ => false

/-- Pandas `series.notnull()`: true for every non-null element; the parameter is
ignored. -/
def series_notnull : CheckFn := fun series _ =>
  series.map fun x => !decide (x = PValue.null)

/-- Source `CHECK_NAME_FUNCTION_MAP`, an *ordered* mapping (Python dicts preserve
insertion order, and `_validate_series_or_index` iterates it in order). -/
def CHECK_NAME_FUNCTION_MAP : List (String × CheckFn) :=
  [("ge", series_greater_equal),
   ("gt", series_greater),
   ("le", series_less_equal),
   ("lt", series_less),
   ("isin", series_isin),
   ("notin", series_notin),
   ("str_contains", series_str_contains),
   ("str_startswith", series_str_startswith),
   ("str_endswith", series_str_endswith),
   ("notnull", series_notnull)]

/-! ## `type_checking.py` -/

/-- numpy/pandas `==` between a series dtype and a Python type object, for
the comparisons `check_dtype_equality` actually performs: the default int,
float and bool dtypes equal their Python types; a `CategoricalDtype` instance
equals a categorical dtype with the same categories; an unknown type object
equals an unknown dtype with the same tag. -/
def dtypePyEq : Dtype → PType → Bool
  | .int64, .int => true
  | .float64, .float => true
  | .boolDt, .bool => true
  | .categoryDt cats, .catDtypeInstance cats2 => decide (cats = cats2)
  | .otherDt t, .otherType t2 => decide (t = t2)
  | _, _ => false

def check_dtype_equality (series_or_index : PSeries) (typ : PType) : Bool :=
  dtypePyEq series_or_index.dtype typ

def check_isinstance (series_or_index : PSeries) (typ : PType) : Bool :=
  match typ with
  | .pdCategoricalIndex => decide (series_or_index.cls = .categoricalIndex)
  | _ => false

def check_type_is (series_or_index : PSeries) (typ : PType) : Bool :=
  match typ with
  | .pdDatetimeIndex => decide (series_or_index.cls = .datetimeIndex)
  | .pdIndexCls => decide (series_or_index.cls = .index)
  | _ => false

/-- Pandas `series_or_index.dtype == np.dtype("O")`. -/
def check_str_object (series_or_index : PSeries) (_ : PType) : Bool :=
  decide (series_or_index.dtype = .objectDt)

/-- Pandas `series_or_index.dtype == np.dtype("datetime64[ns]")`. -/
def check_datetime64 (series_or_index : PSeries) (_ : PType) : Bool :=
  decide (series_or_index.dtype = .datetime64ns)

/-- Pandas `series_or_index.dtype == "category"`: a bare `"category"` string equals
any categorical dtype. -/
def check_bare_categorical_dtype (series_or_index : PSeries) (_ : PType) : Bool :=
  match series_or_index.dtype with
  | .categoryDt _ => true
  | _ => false

/-- Source `TYPE_CHECK_MAP` as a lookup: `some f` when `typ` is a key. -/
def TYPE_CHECK_MAP : PType → Option (PSeries → PType → Bool)
  | .int => some check_dtype_equality
  | .float => some check_dtype_equality
  | .bool => some check_dtype_equality
  | .str => some check_str_object
  | .npDatetime64 => some check_datetime64
  | .pyDatetime => some check_datetime64
  | .pdCategoricalIndex => some check_isinstance
  | .pdCategoricalDtype => some check_bare_categorical_dtype
  | .pdDatetimeIndex => some check_type_is
  | .pdIndexCls => some check_type_is
  | _ => none

/-- Python `isinstance(typ, type(pd.CategoricalDtype()))`. -/
def isCatDtypeInstance : PType → Bool
  | .catDtypeInstance _ => true
  | _ => false

/-- Source `is_of_type` from `type_checking.py`.  The result is an optional bool
because the final line of the Python function computes
`check_dtype_equality(series_or_index, typ)` *without returning it*, so the
function falls off the end and returns `None` for every type that is neither
a `TYPE_CHECK_MAP` key nor a `CategoricalDtype` instance. -/
def is_of_type (series_or_index : PSeries) (typ : PType) : Option Bool :=
  match TYPE_CHECK_MAP typ with
  | some f => some (f series_or_index typ)
  | none =>
    if isCatDtypeInstance typ then
      some (check_dtype_equality series_or_index typ)
    else
      none

/-! ## `model_components.py`: `Field`, `BaseConfig`, `FieldInfo`. -/

/-- The `Field` dataclass.  Note the attribute names: the nullability-related
attributes are `nullable` and `null`; there is *no* attribute `notnull`. -/
structure Field where
  ge : Option PValue := none
  gt : Option PValue := none
  lt : Option PValue := none
  le : Option PValue := none
  isin : Option (List PValue) := none
  notin : Option (List PValue) := none
  str_contains : Option String := none
  str_endswith : Option String := none
  str_startswith : Option String := none
  nullable : Option Bool := none
  null : Option Bool := none
  unique : Option Bool := none
  check_index_name : Bool := true
  «alias» : Option String := none
  regex : Bool := false
  coerce : Bool := false
  deriving DecidableEq, Repr

/-- Python `getattr(field, name)` for the check-parameter attribute names: `some p`
when the attribute exists (with `p` its possibly-`None` value), `none` when
`Field` has no such attribute, in which case Python raises `AttributeError`.
In particular `"notnull"` — a `CHECK_NAME_FUNCTION_MAP` key — is not a `Field`
attribute. -/
def Field.getattrCheck (f : Field) : String → Option (Option CParam)
  | "ge" => some (f.ge.map .val)
  | "gt" => some (f.gt.map .val)
  | "lt" => some (f.lt.map .val)
  | "le" => some (f.le.map .val)
  | "isin" => some (f.isin.map .list)
  | "notin" => some (f.notin.map .list)
  | "str_contains" => some (f.str_contains.map fun s => .val (.str s))
  | "str_endswith" => some (f.str_endswith.map fun s => .val (.str s))
  | "str_startswith" => some (f.str_startswith.map fun s => .val (.str s))
  | "nullable" => some (f.nullable.map .bool)
  | "null" => some (f.null.map .bool)
  | "unique" => some (f.unique.map .bool)
  | _ => none

/-! ## `model.py`: `BaseModel._validate_series_or_index`. -/

/-- Pandas `pd.Index.to_series()`.  A pandas *Series* has no `to_series` attribute,
so calling it on a Series raises `AttributeError` (dead code in the source:
see `is_index` below). -/
def pdToSeries (s : PSeries) : Except VErr (List PValue) :=
  if s.cls = .series then .error .attributeError else .ok s.values

/-- Python `isinstance(se_or_idx, pd.Series)`. -/
def isinstanceSeries (s : PSeries) : Bool := decide (s.cls = .series)

/-- Model of pandas `astype` on an element (the external collaborator's cast):
`none` models the cast raising `ValueError`. -/
def astypeValue (typ : PType) (v : PValue) : Option PValue :=
  match typ with
  | .int =>
    match v with
    | .int n => some (.int n)
    | .str s => (strToIntOpt s).map .int
    | .bool b => some (.int (if b then 1 else 0))
    | .null => none
  | .str =>
    match v with
    | .int n => some (.str (toString n))
    | .str s => some (.str s)
    | .bool b => some (.str (if b then "True" else "False"))
    | .null => some (.str "nan")
  | .bool =>
    match v with
    | .bool b => some (.bool b)
    | .int n => some (.bool (decide (n ≠ 0)))
    | _ => none
  | _ => none

def astypeDtype : PType → Dtype
  | .int => .int64
  | .str => .objectDt
  | .bool => .boolDt
  | _ => .objectDt

/-- Pandas `se_or_idx.astype(typ)`: `none` models `ValueError`. -/
def astype (s : PSeries) (typ : PType) : Option PSeries :=
  (s.values.mapM (astypeValue typ)).map fun vs =>
    { s with values := vs, dtype := astypeDtype typ }

/-- Construction of `ColumnCheckError` (`exceptions.py`): `__init__` renders
the message via `_get_message`, which evaluates
`fail_series.head(MAX_FAILURE_ROWS)` on the object passed as `series`.
A pandas Series has a `.head` method; a pandas Index does not, so
constructing the exception with an Index raises `AttributeError` before the
exception itself can be raised. -/
def mkColumnCheckError (check_name : String) (series : PSeries) : Except VErr VErr :=
  if series.cls = .series then .ok (.columnCheckError check_name)
  else .error .attributeError

/-- Construction of `IndexCheckError` (`exceptions.py`): `__init__` first
evaluates `index.to_series()` on the object passed as `index` — present on a
pandas Index, absent on a Series (`AttributeError`) — and the rendered
message then operates on the converted Series, whose `.head` exists. -/
def mkIndexCheckError (check_name : String) (index : PSeries) : Except VErr VErr :=
  if index.cls = .series then .error .attributeError
  else .ok (.indexCheckError check_name)

/-- The check loop of `_validate_series_or_index`: iterate the ordered
`CHECK_NAME_FUNCTION_MAP`, fetch `getattr(field, check_name)` (raising
`AttributeError` when the attribute does not exist), skip `None` parameters,
evaluate the mask, and on a not-all-true mask construct and raise
`ColumnCheckError` when `is_index` is truthy and `IndexCheckError` otherwise
— where constructing the exception can itself raise (see
`mkColumnCheckError` / `mkIndexCheckError`).  `is_index` is
`~isinstance(se_or_idx, pd.Series)` — a Python *bitwise* not, hence always a
nonzero (truthy) int. -/
def runChecks (se_or_idx : PSeries) (field : Field) (is_index : Int) :
    List (String × CheckFn) → Except VErr Unit
  | [] => .ok ()
  | (check_name, check_func) :: rest =>
    match field.getattrCheck check_name with
    | none => .error .attributeError
    | some check_value =>
      match check_value with
      | none => runChecks se_or_idx field is_index rest
      | some cv =>
        let argE : Except VErr (List PValue) :=
          if intTruthy is_index then .ok se_or_idx.values else pdToSeries se_or_idx
        match argE with
        | .error e => .error e
        | .ok arg =>
          let result := check_func arg cv
          if result.all id then runChecks se_or_idx field is_index rest
          else if intTruthy is_index then
            match mkColumnCheckError check_name se_or_idx with
            | .error e => .error e
            | .ok raised => .error raised
          else
            match mkIndexCheckError check_name se_or_idx with
            | .error e => .error e
            | .ok raised => .error raised

/-- Source `BaseModel._validate_series_or_index` from `model.py`. -/
def _validate_series_or_index (se_or_idx : PSeries) (field : Field) (typ : PType)
    (coerce : Bool) : Except VErr PSeries :=
  let is_index : Int := pyBitNot (isinstanceSeries se_or_idx)
  let typed : Except VErr PSeries :=
    if optTruthy (is_of_type se_or_idx typ) then .ok se_or_idx
    else if coerce then
      match astype se_or_idx typ with
      | some s' => .ok s'
      | none => .error .coersionError
    else .error (.schemaValidationError "dtype_mismatch")
  match typed with
  | .error e => .error e
  | .ok se_or_idx' =>
    match runChecks se_or_idx' field is_index CHECK_NAME_FUNCTION_MAP with
    | .error e => .error e
    | .ok _ => .ok se_or_idx'

/-! ## `model_components.py`: `BaseConfig` and its `_override`. -/

/-- The value of an attribute on a user-supplied `Config` class.  Only bools
are legal (every `BaseConfig` annotation is `bool`); the other constructors
exist so that the `TypeError` path is expressible. -/
inductive ConfigVal
  | bool (b : Bool)
  | int (n : Int)
  | str (s : String)
  deriving DecidableEq, Repr

/-- The non-underscore attributes of a user `Config` class override.  (Python's
`dir()` would list them alphabetically; only existence and lookup matter to the
behavior modelled here, so the list order is kept as given.) -/
abbrev ConfigOverride := List (String × ConfigVal)

/-- The `BaseConfig` dataclass with its field defaults. -/
structure BaseConfig where
  strict : Bool := true
  filter : Bool := false
  ordered : Bool := false
  coerce : Bool := false
  multiindex_strict : Bool := true
  multiindex_ordered : Bool := false
  multiindex_sorted : Bool := false
  multiindex_unique : Bool := false
  deriving DecidableEq, Repr

def defaultConfig : BaseConfig := {}

/-- The keys of `BaseConfig.__annotations__`. -/
def configFieldNames : List String :=
  ["strict", "filter", "ordered", "coerce",
   "multiindex_strict", "multiindex_ordered", "multiindex_sorted", "multiindex_unique"]

/-- Source `BaseConfig._assert_config_fields`: every non-underscore attribute of the
override must be a `BaseConfig` annotation, else `ValueError`. -/
def _assert_config_fields : ConfigOverride → Except VErr Unit
  | [] => .ok ()
  | (name, _) :: rest =>
    if strStarts "_" name then _assert_config_fields rest
    else if decide (name ∈ configFieldNames) then _assert_config_fields rest
    else .error .valueError

def isBoolVal : ConfigVal → Bool
  | .bool _ => true
  | _ => false

/-- Source `BaseConfig._assert_config_types`: every non-underscore attribute that is
an annotation must have a value of the annotated type (`bool`), else
`TypeError`.  (`isinstance(value, bool)`: only actual bools qualify.) -/
def _assert_config_types : ConfigOverride → Except VErr Unit
  | [] => .ok ()
  | (name, value) :: rest =>
    if strStarts "_" name then _assert_config_types rest
    else if decide (name ∈ configFieldNames) then
      if isBoolVal value then _assert_config_types rest else .error .typeError
    else _assert_config_types rest

def ovLookup (ov : ConfigOverride) (name : String) : Option ConfigVal :=
  (ov.find? fun p => decide (p.1 = name)).map (·.2)

/-- Attribute lookup on `type("SchemaConfig", (other_cls, cls), {})`: the MRO
checks the override first and falls back to `BaseConfig`'s default. -/
def ovBool (ov : ConfigOverride) (name : String) (dflt : Bool) : Bool :=
  match ovLookup ov name with
  | some (.bool b) => b
  | _ => dflt

/-- The effective configuration produced by `_override`'s `type(...)` call. -/
def mkEffective (ov : ConfigOverride) : BaseConfig :=
  { strict := ovBool ov "strict" true,
    filter := ovBool ov "filter" false,
    ordered := ovBool ov "ordered" false,
    coerce := ovBool ov "coerce" false,
    multiindex_strict := ovBool ov "multiindex_strict" true,
    multiindex_ordered := ovBool ov "multiindex_ordered" false,
    multiindex_sorted := ovBool ov "multiindex_sorted" false,
    multiindex_unique := ovBool ov "multiindex_unique" false }

/-- Source `BaseConfig._override` (and hence `BaseModel._get_config`): `none` models
`other_cls is cls` (the schema defined no `Config` of its own), returned
unchanged. -/
def BaseConfig_override : Option ConfigOverride → Except VErr BaseConfig
  | none => .ok defaultConfig
  | some ov =>
    match _assert_config_fields ov with
    | .error e => .error e
    | .ok _ =>
      match _assert_config_types ov with
      | .error e => .error e
      | .ok _ => .ok (mkEffective ov)

/-- Attribute access on a `BaseConfig` by annotation name (for stating the
lookup semantics of the effective configuration). -/
def cfgGet (c : BaseConfig) : String → Bool
  | "strict" => c.strict
  | "filter" => c.filter
  | "ordered" => c.ordered
  | "coerce" => c.coerce
  | "multiindex_strict" => c.multiindex_strict
  | "multiindex_ordered" => c.multiindex_ordered
  | "multiindex_sorted" => c.multiindex_sorted
  | "multiindex_unique" => c.multiindex_unique
  | _ => false

/-! ## The schema map (`DataFrameModel._get_schema_map`'s result shape).

`_get_schema_map` reflects over the schema class's annotations; the canonical
result — an ordered mapping from attribute name to
`(type, optional, is_index, field)` — is the model's input.  Keys are
`Option String` because the `check_index_name=False` rename in
`_select_matching_names` can install an index's name, which may be `None`,
as a key. -/

structure FieldInfo where
  type : PType
  optional : Bool
  is_index : Bool
  field : Field
  deriving DecidableEq, Repr

abbrev SchemaMap := List (Option String × FieldInfo)

/-! ## `DataFrameModel._validate_schema`. -/

/-- The loop body of `_validate_schema`, carrying the accumulated
`using_check_index_name` list.  For each entry, in source order: (1) if the
entry is an index field, append its `check_index_name` and fail when the list
has more than one entry not all true; (2) fail when `regex` is set without an
alias; (3) fail when a string check is used and the type is not `str`. -/
def _validate_schema_loop (acc : List Bool) : SchemaMap → Except VErr Unit
  | [] => .ok ()
  | (_, fi) :: rest =>
    let acc' := if fi.is_index then acc ++ [fi.field.check_index_name] else acc
    if fi.is_index && decide (1 < acc'.length) && !acc'.all id then
      .error (.schemaDefinitionError "multi_index_name_check")
    else if fi.field.regex && fi.field.«alias».isNone then
      .error (.schemaDefinitionError "regex_without_alias")
    else if (fi.field.str_contains.isSome || fi.field.str_endswith.isSome ||
        fi.field.str_startswith.isSome) && !decide (fi.type = PType.str) then
      .error (.schemaDefinitionError "string_check_non_string")
    else _validate_schema_loop acc' rest

def _validate_schema (schema_map : SchemaMap) : Except VErr Unit :=
  _validate_schema_loop [] schema_map

/-! ## DataFrames. -/

/-- A (multi-)index: a nonempty list of levels.  A default `RangeIndex` is a
single level with name `None`. -/
structure PIndex where
  levels : List PSeries
  deriving DecidableEq, Repr

/-- A DataFrame: named columns plus an index. -/
structure DataFrame where
  cols : List PSeries
  index : PIndex
  deriving DecidableEq, Repr

/-- Python `list(df.index.names)`. -/
def PIndex.names (idx : PIndex) : List (Option String) := idx.levels.map (·.name)

/-- Python `list(df.columns)`. -/
def DataFrame.colNames (df : DataFrame) : List (Option String) := df.cols.map (·.name)

/-- The index as a list of row tuples (one tuple per row), for the
monotonic/unique checks. -/
def PIndex.tuples (idx : PIndex) : List (List PValue) :=
  (idx.levels.map (·.values)).transpose

/-- Lexicographic `<=` on index row tuples (model of pandas ordering of
multi-index tuples). -/
def tupleLe : List PValue → List PValue → Bool
  | [], _ => true
  | _ :: _, [] => false
  | a :: as_, b :: bs => if a = b then tupleLe as_ bs else pvLe a b

def pairwiseChain (le : List PValue → List PValue → Bool) :
    List (List PValue) → Bool
  | [] => true
  | [_] => true
  | a :: b :: rest => le a b && pairwiseChain le (b :: rest)

/-- Pandas `df.index.is_monotonic_increasing` (model). -/
def PIndex.isMonotonicIncreasing (idx : PIndex) : Bool :=
  pairwiseChain tupleLe idx.tuples

/-- Pandas `df.index.is_monotonic_decreasing` (model). -/
def PIndex.isMonotonicDecreasing (idx : PIndex) : Bool :=
  pairwiseChain (fun a b => tupleLe b a) idx.tuples

/-- Pandas `df.index.is_unique` (model): no duplicate row tuples. -/
def PIndex.isUnique (idx : PIndex) : Bool := decide idx.tuples.Nodup

/-- Attribute access on a possibly-`None` Python variable holding a DataFrame
(`df.reset_index(drop=True, inplace=True)` returns `None`): accessing any
attribute of `None` raises `AttributeError`. -/
def pyDfAttr (dfOpt : Option DataFrame) : Except VErr DataFrame :=
  match dfOpt with
  | none => .error .attributeError
  | some df => .ok df

/-! ## `DataFrameModel._select_matching_names`. -/

/-- Python `[name for name in names if re.match(alias, name)]`: evaluating
`re.match` on a `None` name raises `TypeError`. -/
def matchedNamesRegex (a : String) : List (Option String) → Except VErr (List (Option String))
  | [] => .ok []
  | none :: _ => .error .typeError
  | some n :: rest =>
    match matchedNamesRegex a rest with
    | .error e => .error e
    | .ok r => .ok (if reMatch a n then some n :: r else r)

/-- Python `schema_map[new_key] = schema_map.pop(old_key)` on an ordered dict:
remove the `old_key` entry, then assign its value to `new_key` (updating in
place when `new_key` already exists, appending otherwise). -/
def dictPopAssign (sch : SchemaMap) (oldKey newKey : Option String) : SchemaMap :=
  match (sch.find? fun p => decide (p.1 = oldKey)).map (·.2) with
  | none => sch
  | some v =>
    let s := sch.filter fun p => !decide (p.1 = oldKey)
    if s.any fun p => decide (p.1 = newKey) then
      s.map fun p => if decide (p.1 = newKey) then (p.1, v) else p
    else s ++ [(newKey, v)]

/-- Python `field.alias or name`: the `or` takes the left operand when truthy
(a non-`None`, nonempty string), the right otherwise. -/
def pyOrName (a : Option String) (name : Option String) : Option String :=
  match a with
  | some s => if s = "" then name else some s
  | none => name

/-- The loop of `_select_matching_names`, iterating the schema-map entries
with the accumulated `matching_names`.  `orig` is `cls.schema_map`, which the
`check_index_name=False` branch mutates (pop + reassign) before returning the
whole `names` argument. -/
def _select_matching_names_loop (orig : SchemaMap) (match_index : Bool)
    (names : List (Option String)) :
    List (Option String × FieldInfo) → List (Option String) →
    Except VErr (SchemaMap × List (Option String))
  | [], matching => .ok (orig, matching)
  | (series_name, fi) :: rest, matching =>
    if fi.is_index && !match_index then
      _select_matching_names_loop orig match_index names rest matching
    else if !fi.is_index && match_index then
      _select_matching_names_loop orig match_index names rest matching
    else
      match fi.field.«alias», fi.field.regex with
      | some a, true =>
        (match matchedNamesRegex a names with
        | .error e => .error e
        | .ok matched =>
          if matched.isEmpty && !fi.optional then
            .error (if match_index then .missingIndexError else .missingColumnsError)
          else if matched.any fun n => decide (n ∈ matching) then
            .error (.schemaDefinitionError "regex_overlap")
          else
            _select_matching_names_loop orig match_index names rest (matching ++ matched))
      | some a, false =>
        if !decide (some a ∈ names) && !fi.optional then
          .error (if match_index then .missingIndexError else .missingColumnsError)
        else if decide (some a ∈ matching) then
          .error (.schemaDefinitionError "alias_reuse")
        else
          _select_matching_names_loop orig match_index names rest (matching ++ [some a])
      | none, _ =>
        if !decide (series_name ∈ names) && !fi.optional && fi.field.check_index_name then
          .error (if match_index then .missingIndexError else .missingColumnsError)
        else if decide (series_name ∈ matching) then
          .error (.schemaDefinitionError "name_reuse")
        else if !fi.field.check_index_name && match_index then
          if decide (names.length ≠ 1) then .error .assertionError
          else .ok (dictPopAssign orig series_name (names.head?.getD none), names)
        else
          _select_matching_names_loop orig match_index names rest (matching ++ [series_name])

/-- Source `DataFrameModel._select_matching_names`.  Returns the (possibly renamed)
schema map together with the matching names. -/
def _select_matching_names (sch : SchemaMap) (names : List (Option String))
    (match_index : Bool) : Except VErr (SchemaMap × List (Option String)) :=
  _select_matching_names_loop sch match_index names sch []

/-! ## `DataFrameModel._validate_multiindex`. -/

/-- The source `Config.filter` block: drop unmatched index levels.  When *no* level
matches, the source executes `df = df.reset_index(drop=True, inplace=True)`;
with `inplace=True` the call returns `None`, so the local `df` becomes `None`
(modelled as `Option DataFrame`).  When some but not all levels match, the
unmatched ones are dropped (pandas `droplevel` raises `ValueError` if asked
to drop every level). -/
def miFilterStep (Config : BaseConfig) (matching : List (Option String))
    (df : DataFrame) : Except VErr (Option DataFrame) :=
  if Config.filter then
    if df.index.names ≠ [none] ∧ matching.length < df.index.names.length then
      if matching.length = 0 then .ok none
      else
        let kept := df.index.levels.filter fun l => decide (l.name ∈ matching)
        if kept.length = 0 then .error .valueError
        else .ok (some { df with index := ⟨kept⟩ })
    else .ok (some df)
  else .ok (some df)

/-- Whether `set(df.index.names) - set(matching) - \x7bNone\x7d` is nonempty. -/
def miUnexpected (names matching : List (Option String)) : Bool :=
  !(names.filter fun n => !decide (n ∈ matching) && !decide (n = none)).isEmpty

def miStrictStep (Config : BaseConfig) (matching : List (Option String))
    (dfOpt : Option DataFrame) : Except VErr Unit :=
  if Config.multiindex_strict then
    match pyDfAttr dfOpt with
    | .error e => .error e
    | .ok df =>
      if miUnexpected df.index.names matching then
        .error (.schemaValidationError "unexpected_indices")
      else .ok ()
  else .ok ()

def miOrderedStep (Config : BaseConfig) (matching : List (Option String))
    (dfOpt : Option DataFrame) : Except VErr Unit :=
  if Config.multiindex_ordered then
    match pyDfAttr dfOpt with
    | .error e => .error e
    | .ok df =>
      if df.index.names ≠ [none] ∧ matching ≠ df.index.names then
        .error (.schemaValidationError "index_order")
      else .ok ()
  else .ok ()

def miSortedStep (Config : BaseConfig) (dfOpt : Option DataFrame) : Except VErr Unit :=
  if Config.multiindex_sorted then
    match pyDfAttr dfOpt with
    | .error e => .error e
    | .ok df =>
      if !(df.index.isMonotonicIncreasing || df.index.isMonotonicDecreasing) then
        .error (.schemaValidationError "index_not_sorted")
      else .ok ()
  else .ok ()

def miUniqueStep (Config : BaseConfig) (dfOpt : Option DataFrame) : Except VErr Unit :=
  if Config.multiindex_unique then
    match pyDfAttr dfOpt with
    | .error e => .error e
    | .ok df =>
      if !df.index.isUnique then
        .error (.schemaValidationError "index_not_unique")
      else .ok ()
  else .ok ()

/-- Source `DataFrameModel._validate_multiindex`.  Returns the possibly renamed
schema map and the possibly-`None` local `df`. -/
def _validate_multiindex (sch : SchemaMap) (Config : BaseConfig) (df : DataFrame) :
    Except VErr (SchemaMap × Option DataFrame) :=
  match _select_matching_names sch df.index.names true with
  | .error e => .error e
  | .ok (sch1, matching) =>
    match miFilterStep Config matching df with
    | .error e => .error e
    | .ok dfOpt =>
      match miStrictStep Config matching dfOpt with
      | .error e => .error e
      | .ok _ =>
        match miOrderedStep Config matching dfOpt with
        | .error e => .error e
        | .ok _ =>
          match miSortedStep Config dfOpt with
          | .error e => .error e
          | .ok _ =>
            match miUniqueStep Config dfOpt with
            | .error e => .error e
            | .ok _ => .ok (sch1, dfOpt)

/-! ## `DataFrameModel._validate_columns`. -/

/-- Source `DataFrameModel._validate_columns`.  The argument is the possibly-`None`
result of `_validate_multiindex`; evaluating `list(df.columns)` on `None`
raises `AttributeError`. -/
def _validate_columns (sch : SchemaMap) (Config : BaseConfig)
    (dfOpt : Option DataFrame) : Except VErr (SchemaMap × DataFrame) :=
  match pyDfAttr dfOpt with
  | .error e => .error e
  | .ok df =>
    match _select_matching_names sch df.colNames false with
    | .error e => .error e
    | .ok (sch1, matching) =>
      let filtered : Except VErr DataFrame :=
        if Config.filter then
          .ok { df with cols := df.cols.filter fun c => decide (c.name ∈ matching) }
        else if Config.strict then
          if !(df.colNames.filter fun n => !decide (n ∈ matching)).isEmpty then
            .error (.schemaValidationError "unexpected_columns")
          else .ok df
        else .ok df
      match filtered with
      | .error e => .error e
      | .ok df1 =>
        if Config.ordered then
          if matching ≠ df1.colNames then
            .error (.schemaValidationError "column_order")
          else .ok (sch1, df1)
        else .ok (sch1, df1)

/-! ## The per-field selectors of `DataFrameModel`. -/

/-- Source `DataFrameModel._select_series`: `df[column_name]`, returning a singleton
list, or an empty list on `KeyError` when the field is optional (the source
`assert`s `optional` otherwise). -/
def _select_series (df : DataFrame) (column_name : Option String) (optional : Bool) :
    Except VErr (List PSeries) :=
  match df.cols.find? fun c => decide (c.name = column_name) with
  | some c => .ok [c]
  | none => if optional then .ok [] else .error .assertionError

/-- Source `DataFrameModel._select_index_series`: `df.index.get_level_values(level)`,
with the same `KeyError`/`assert optional` handling. -/
def _select_index_series (df : DataFrame) (level : Option String) (optional : Bool) :
    Except VErr (List PSeries) :=
  match df.index.levels.find? fun l => decide (l.name = level) with
  | some l => .ok [l]
  | none => if optional then .ok [] else .error .assertionError

/-- Source `DataFrameModel._select_index_series_by_regex`: the index levels whose
name matches the regex; `re.match` on a `None` level name raises `TypeError`. -/
def _select_index_series_by_regex_loop (a : String) :
    List PSeries → Except VErr (List PSeries)
  | [] => .ok []
  | l :: rest =>
    match l.name with
    | none => .error .typeError
    | some n =>
      match _select_index_series_by_regex_loop a rest with
      | .error e => .error e
      | .ok r => .ok (if reMatch a n then l :: r else r)

def _select_index_series_by_regex (df : DataFrame) (a : String) :
    Except VErr (List PSeries) :=
  _select_index_series_by_regex_loop a df.index.levels

/-- Source `DataFrameModel._select_series_by_regex`: `df.filter(regex=alias, axis=1)`
selects the columns whose name the pattern `re.search`-matches (columns with a
`None` name are not matched in this model). -/
def _select_series_by_regex (df : DataFrame) (a : String) : List PSeries :=
  df.cols.filter fun c =>
    match c.name with
    | some n => reSearch a n
    | none => false

/-- Source `DataFrameModel._override_level`: write coerced values back into one index
level.  A multi-level index (model: two or more levels) goes through the
`to_frame`/`from_frame` route, requiring the level name to be present; a
single index requires the name to match and is rebuilt with the same class. -/
def _override_level (idx : PIndex) (index_level : Option String) (new : PSeries) :
    Except VErr PIndex :=
  if 2 ≤ idx.levels.length then
    if !idx.levels.any fun l => decide (l.name = index_level) then .error .valueError
    else
      .ok ⟨idx.levels.map fun l =>
        if decide (l.name = index_level) then
          { l with values := new.values, dtype := new.dtype }
        else l⟩
  else
    match idx.levels with
    | [l] =>
      if decide (l.name = index_level) then
        .ok ⟨[{ l with values := new.values, dtype := new.dtype }]⟩
      else .error .valueError
    | _ => .error .valueError

/-- Python `df[series.name] = series`: replace the column with that name, or append
a new one. -/
def dfSetCol (df : DataFrame) (s : PSeries) : DataFrame :=
  if df.cols.any fun c => decide (c.name = s.name) then
    { df with cols := df.cols.map fun c =>
        if decide (c.name = s.name) then { s with cls := .series } else c }
  else { df with cols := df.cols ++ [{ s with cls := .series }] }

/-! ## `DataFrameModel._validate_custom_checks`.

A custom check is an attribute carrying `__check__` (set by the `check`
decorator): `check_columns = None` means a whole-DataFrame check, otherwise a
list of schema attribute names whose columns the check runs on.  The model
carries the predicate's behavior on both input kinds. -/

structure CustomCheck where
  check_columns : Option (List (Option String))
  dfCheck : DataFrame → Bool
  seriesCheck : PSeries → Bool

def runColumnCheck (df : DataFrame) (chk : CustomCheck) :
    List (Option String) → Except VErr Unit
  | [] => .ok ()
  | c :: rest =>
    match df.cols.find? fun col => decide (col.name = c) with
    | none => .error .keyError
    | some col =>
      if !chk.seriesCheck col then .error .valueError
      else runColumnCheck df chk rest

def _validate_custom_checks (checks : List CustomCheck)
    (annotations : List (Option String)) (df : DataFrame) : Except VErr Unit :=
  match checks with
  | [] => .ok ()
  | chk :: rest =>
    match chk.check_columns with
    | none =>
      if !chk.dfCheck df then .error .valueError
      else _validate_custom_checks rest annotations df
    | some check_columns =>
      if !(check_columns.filter fun c => !decide (c ∈ annotations)).isEmpty then
        .error (.schemaDefinitionError "custom_check_undefined_columns")
      else
        match runColumnCheck df chk check_columns with
        | .error e => .error e
        | .ok _ => _validate_custom_checks rest annotations df

/-! ## `DataFrameModel.validate`: the per-field loop and the orchestrator. -/

/-- The inner loop over the series matched for one field: validate each and,
when coercion is on, write the result back into the frame. -/
def validateMatched (Config : BaseConfig) (fi : FieldInfo) :
    DataFrame → List PSeries → Except VErr DataFrame
  | df, [] => .ok df
  | df, s :: rest =>
    match _validate_series_or_index s fi.field fi.type (Config.coerce || fi.field.coerce) with
    | .error e => .error e
    | .ok s' =>
      let dfE : Except VErr DataFrame :=
        if Config.coerce || fi.field.coerce then
          if fi.is_index then
            match _override_level df.index s'.name s' with
            | .error e => .error e
            | .ok idx => .ok { df with index := idx }
          else .ok (dfSetCol df s')
        else .ok df
      match dfE with
      | .error e => .error e
      | .ok df1 => validateMatched Config fi df1 rest

/-- The per-field loop of `validate`: select the matching series (index level
by regex / by name-or-alias, column by regex / alias / attribute name), then
validate each. -/
def _validate_fields (Config : BaseConfig) :
    SchemaMap → DataFrame → Except VErr DataFrame
  | [], df => .ok df
  | (name, fi) :: rest, df =>
    let selected : Except VErr (List PSeries) :=
      if fi.is_index then
        if fi.field.regex && fi.field.«alias».isSome then
          _select_index_series_by_regex df (fi.field.«alias».getD "")
        else
          _select_index_series df (pyOrName fi.field.«alias» name) fi.optional
      else
        match fi.field.«alias» with
        | some a =>
          if fi.field.regex then .ok (_select_series_by_regex df a)
          else _select_series df (some a) fi.optional
        | none => _select_series df name fi.optional
    match selected with
    | .error e => .error e
    | .ok matched =>
      match validateMatched Config fi df matched with
      | .error e => .error e
      | .ok df1 => _validate_fields Config rest df1

/-- Source `DataFrameModel.validate`.  The schema map (the result of
`_get_schema_map`) and the custom checks (the `__check__`-tagged attributes)
are inputs; `configOv` is the schema's `Config` class (`none` when the schema
defines none).  Stages in source order: resolve config, sanity-check the
schema, resolve/filter the index, resolve/filter the columns, validate every
field, run custom checks. -/
def validate (sch : SchemaMap) (checks : List CustomCheck)
    (configOv : Option ConfigOverride) (df : DataFrame) : Except VErr DataFrame :=
  match BaseConfig_override configOv with
  | .error e => .error e
  | .ok Config =>
    match _validate_schema sch with
    | .error e => .error e
    | .ok _ =>
      match _validate_multiindex sch Config df with
      | .error e => .error e
      | .ok (sch1, dfOpt) =>
        match _validate_columns sch1 Config dfOpt with
        | .error e => .error e
        | .ok (sch2, df1) =>
          match _validate_fields Config sch2 df1 with
          | .error e => .error e
          | .ok df2 =>
            match _validate_custom_checks checks (sch.map (·.1)) df2 with
            | .error e => .error e
            | .ok _ => .ok df2

/-! ## Helper lemmas about `_validate_series_or_index`. -/

/-- On a dtype mismatch with `coerce=False`, the validator raises
`SchemaValidationError`. -/
lemma vsoi_mismatch_no_coerce (s : PSeries) (f : Field) (typ : PType)
    (h : optTruthy (is_of_type s typ) = false) :
    _validate_series_or_index s f typ false = .error (.schemaValidationError "dtype_mismatch") := by
  unfold _validate_series_or_index
  rw [h]
  simp

/-- On a dtype mismatch with `coerce=True` and a failing cast, the validator
raises `CoersionError`. -/
lemma vsoi_mismatch_coerce_fail (s : PSeries) (f : Field) (typ : PType)
    (h : optTruthy (is_of_type s typ) = false) (hc : astype s typ = none) :
    _validate_series_or_index s f typ true = .error .coersionError := by
  unfold _validate_series_or_index
  rw [h, hc]
  simp

/-! ## Claim C9. -/

/-- C9: when a series' dtype does not match the declared type, the validator
raises `SchemaValidationError` if `coerce` is false, and with `coerce` true it
attempts a cast and raises `CoersionError` (not `SchemaValidationError`) when
the cast fails. -/
theorem C9_dtype_mismatch_error_paths (s : PSeries) (f : Field) (typ : PType)
    (h : optTruthy (is_of_type s typ) = false) :
    _validate_series_or_index s f typ false = .error (.schemaValidationError "dtype_mismatch") ∧
    (astype s typ = none →
      _validate_series_or_index s f typ true = .error .coersionError) :=
  ⟨vsoi_mismatch_no_coerce s f typ h, fun hc => vsoi_mismatch_coerce_fail s f typ h hc⟩

/-- Witness for C9: an object-dtype series of the string `"x"` declared as
`int`: the dtype check is falsy, the cast fails, and both error paths are
taken as the theorem states. -/
theorem C9_witness :
    optTruthy (is_of_type ⟨some "a", .series, .objectDt, [.str "x"]⟩ .int) = false ∧
    astype ⟨some "a", .series, .objectDt, [.str "x"]⟩ .int = none ∧
    _validate_series_or_index ⟨some "a", .series, .objectDt, [.str "x"]⟩ {} .int false
      = .error (.schemaValidationError "dtype_mismatch") ∧
    _validate_series_or_index ⟨some "a", .series, .objectDt, [.str "x"]⟩ {} .int true
      = .error .coersionError :=
  ⟨rfl, rfl,
    (C9_dtype_mismatch_error_paths ⟨some "a", .series, .objectDt, [.str "x"]⟩ {} .int rfl).1,
    (C9_dtype_mismatch_error_paths ⟨some "a", .series, .objectDt, [.str "x"]⟩ {} .int rfl).2 rfl⟩

/-! ## Claim C10. -/

/-- C10: for every declared target type that is neither a `TYPE_CHECK_MAP`
key nor a `CategoricalDtype` instance, `is_of_type` returns the falsy `None`
regardless of the series' actual dtype (the Python function computes the
final dtype comparison but never returns it), so such a field always takes
the mismatch path and raises `SchemaValidationError` when `coerce` is false
— even when the actual dtype equals the target type. -/
theorem C10_unknown_type_always_falsy (s : PSeries) (f : Field) (typ : PType)
    (h1 : TYPE_CHECK_MAP typ = none) (h2 : isCatDtypeInstance typ = false) :
    is_of_type s typ = none ∧
    _validate_series_or_index s f typ false = .error (.schemaValidationError "dtype_mismatch") := by
  have hiot : is_of_type s typ = none := by
    unfold is_of_type
    rw [h1, h2]
    simp
  refine ⟨hiot, vsoi_mismatch_no_coerce s f typ ?_⟩
  rw [hiot]
  rfl

/-- Witness for C10: a series whose dtype (`otherDt "bytes"`) equals the
declared target type (`otherType "bytes"`) under the dtype comparison, yet
`is_of_type` returns `None` and validation raises `SchemaValidationError`. -/
theorem C10_witness :
    check_dtype_equality ⟨some "b", .series, .otherDt "bytes", [.int 1]⟩ (.otherType "bytes") = true ∧
    is_of_type ⟨some "b", .series, .otherDt "bytes", [.int 1]⟩ (.otherType "bytes") = none ∧
    _validate_series_or_index ⟨some "b", .series, .otherDt "bytes", [.int 1]⟩ {}
      (.otherType "bytes") false = .error (.schemaValidationError "dtype_mismatch") :=
  ⟨rfl,
    (C10_unknown_type_always_falsy ⟨some "b", .series, .otherDt "bytes", [.int 1]⟩ {}
      (.otherType "bytes") rfl rfl).1,
    (C10_unknown_type_always_falsy ⟨some "b", .series, .otherDt "bytes", [.int 1]⟩ {}
      (.otherType "bytes") rfl rfl).2⟩

/-! ## Claim C2 (code bug).

The claim says a field on which every check parameter is `None` or absent
makes the validator skip all checks and return the input unchanged.  In the
code, `CHECK_NAME_FUNCTION_MAP` registers the check name `"notnull"`, but
`Field` has no attribute `notnull` (its nullability attributes are `nullable`
and `null`), so the loop's `getattr(field, check_name)` raises
`AttributeError` instead of skipping — the validator never returns. -/

/-- C2 as the code behaves: a dtype-matching series validated against a
default `Field()` (every check parameter `None`) raises `AttributeError`
at the `"notnull"` map entry instead of returning the input unchanged. -/
theorem C2_code_eval_default_field_attribute_error :
    _validate_series_or_index ⟨some "a", .series, .int64, [.int 1]⟩ {} .int false
      = .error .attributeError := rfl

/-! ## Claim C3 (code bug).

Because `is_index = ~isinstance(se_or_idx, pd.Series)` is a *bitwise* not on
a bool (`~True = -2`, `~False = -1`), `is_index` is always a truthy int, and
the truthy branch of the failure raise constructs `ColumnCheckError`.  On a
failing *Series* check that construction succeeds and `ColumnCheckError` is
raised, agreeing with the claim's column half.  On a failing *index-level*
check the code reaches `raise ColumnCheckError(...)`, but the constructor's
`_get_message` calls `fail_series.head(...)` on the `pd.Index` — which has no
`.head` attribute — so the program actually raises `AttributeError` from
inside the exception constructor; the `IndexCheckError` the claim requires is
never raised. -/

/-- C3 as the code behaves: a failing `ge` check on a column *Series* raises
the column-variant `ColumnCheckError` (first conjunct, matching the claim's
column half), but the same failing check on an *index level*
(`cls = index`, values `[0]`, `Field(ge=1)`) raises `AttributeError` — from
`fail_series.head(...)` inside `ColumnCheckError.__init__` — instead of the
`IndexCheckError` the claim requires. -/
theorem C3_code_eval_check_failure_error_kinds :
    _validate_series_or_index ⟨some "a", .series, .int64, [.int 0]⟩ { ge := some (.int 1) }
      .int false = .error (.columnCheckError "ge") ∧
    _validate_series_or_index ⟨some "ix", .index, .int64, [.int 0]⟩ { ge := some (.int 1) }
      .int false = .error .attributeError := ⟨rfl, rfl⟩

/-! ## Claim C1 (code bug).

A schema and table satisfying all of the claim's premises (column present
under its exact name, dtype equal, no constraints, `coerce=false`,
`filter=false`) should make `validate` return the table unchanged; the code
instead raises `AttributeError` from the `"notnull"` lookup of C2. -/

def schC1 : SchemaMap := [(some "a", ⟨.int, false, false, {}⟩)]

def dfC1 : DataFrame :=
  ⟨[⟨some "a", .series, .int64, [.int 1]⟩], ⟨[⟨none, .rangeIndex, .int64, [.int 0]⟩]⟩⟩

/-- C1 as the code behaves: a fully conforming table (`{a: [1]}` of dtype
int64 against schema `{a: int}`, default config) does not make `validate`
return the table — it raises `AttributeError`. -/
theorem C1_code_eval_conforming_table_raises : validate schC1 [] none dfC1 = .error .attributeError := rfl

/-! ## Claim C5 (code bug).

With `filter=true` and no index level matched by the schema, the source runs
`df = df.reset_index(drop=True, inplace=True)`; with `inplace=True` the call
returns `None`, so `df` becomes `None` and the following
`multiindex_strict` block's `df.index` raises `AttributeError` — `validate`
never returns the flat-index table the claim describes. -/

def schC5 : SchemaMap := [(some "a", ⟨.int, false, false, {}⟩)]

def dfC5 : DataFrame :=
  ⟨[⟨some "a", .series, .int64, [.int 1]⟩], ⟨[⟨some "ix", .index, .int64, [.int 0]⟩]⟩⟩

/-- C5 as the code behaves: schema `{a: int}` (no index fields), config
`filter=true`, table with a named index level `ix`: `validate` raises
`AttributeError` instead of dropping the level and returning a table. -/
theorem C5_code_eval_filter_drop_all_raises :
    validate schC5 [] (some [("filter", .bool true)]) dfC5 = .error .attributeError := rfl

/-! ## Claim C6. -/

/-- C6: with `filter=true`, column policy keeps exactly the resolved-matched
columns in the table's existing relative order, silently dropping every other
column (first conjunct, for the configurations that return), and the strict
policy is not applied: no `SchemaValidationError` about unexpected columns is
ever raised, even when `strict=true` (second conjunct, for every
configuration with `filter=true`). -/
theorem C6_filter_dominates_strict (sch : SchemaMap) (cfg : BaseConfig) (df : DataFrame)
    (sch' : SchemaMap) (m : List (Option String))
    (hf : cfg.filter = true)
    (hsel : _select_matching_names sch df.colNames false = .ok (sch', m)) :
    (cfg.ordered = false →
      _validate_columns sch cfg (some df) =
        .ok (sch', { df with cols := df.cols.filter fun c => decide (c.name ∈ m) })) ∧
    _validate_columns sch cfg (some df) ≠ .error (.schemaValidationError "unexpected_columns") := by
  have key : _validate_columns sch cfg (some df) =
      (if cfg.ordered then
        (if m ≠ ({ df with cols := df.cols.filter fun c => decide (c.name ∈ m)} : DataFrame).colNames then
          .error (.schemaValidationError "column_order")
        else .ok (sch', { df with cols := df.cols.filter fun c => decide (c.name ∈ m) }))
      else .ok (sch', { df with cols := df.cols.filter fun c => decide (c.name ∈ m) })) := by
    simp only [_validate_columns, pyDfAttr, hsel, hf, if_true]
  constructor
  · intro ho
    rw [key, ho]
    simp
  · rw [key]
    cases hcord : cfg.ordered
    · simp
    · simp only [if_true]
      split
      · intro hcontra
        simp only [Except.error.injEq, VErr.schemaValidationError.injEq] at hcontra
        exact absurd hcontra (by decide)
      · simp

/-- Witness for C6 (the spec's Scenario B): schema `{a: int}`, config
`filter=true` (with the default `strict=true`), table `{a: [1], extra: [9]}`:
the result keeps only column `a` and drops `extra` silently. -/
theorem C6_witness :
    _validate_columns [(some "a", ⟨.int, false, false, {}⟩)] { filter := true }
      (some ⟨[⟨some "a", .series, .int64, [.int 1]⟩, ⟨some "extra", .series, .int64, [.int 9]⟩],
        ⟨[⟨none, .rangeIndex, .int64, [.int 0]⟩]⟩⟩) =
      .ok ([(some "a", ⟨.int, false, false, {}⟩)],
        ⟨[⟨some "a", .series, .int64, [.int 1]⟩], ⟨[⟨none, .rangeIndex, .int64, [.int 0]⟩]⟩⟩) := by
  have h := (C6_filter_dominates_strict [(some "a", ⟨.int, false, false, {}⟩)] { filter := true }
    ⟨[⟨some "a", .series, .int64, [.int 1]⟩, ⟨some "extra", .series, .int64, [.int 9]⟩],
      ⟨[⟨none, .rangeIndex, .int64, [.int 0]⟩]⟩⟩
    [(some "a", ⟨.int, false, false, {}⟩)] [some "a"] rfl rfl).1 rfl
  exact h

/-! ## Helper lemmas about the configuration resolver. -/

lemma assert_fields_shape (ov : ConfigOverride) :
    _assert_config_fields ov = .ok () ∨ _assert_config_fields ov = .error .valueError := by
  induction ov with
  | nil => exact .inl rfl
  | cons p rest ih =>
    obtain ⟨name, v⟩ := p
    simp only [_assert_config_fields]
    split
    · exact ih
    · split
      · exact ih
      · exact .inr rfl

lemma assert_fields_ok_iff (ov : ConfigOverride) :
    _assert_config_fields ov = .ok () ↔
      ∀ p ∈ ov, strStarts "_" p.1 = true ∨ p.1 ∈ configFieldNames := by
  induction ov with
  | nil => simp [_assert_config_fields]
  | cons p rest ih =>
    obtain ⟨name, v⟩ := p
    simp only [_assert_config_fields, List.mem_cons]
    constructor
    · intro h q hq
      rcases hq with rfl | hq
      · by_cases hu : strStarts "_" name = true
        · exact .inl hu
        · rw [if_neg hu] at h
          by_cases hm : name ∈ configFieldNames
          · exact .inr hm
          · rw [if_neg (by simpa using hm)] at h
            exact absurd h (by simp)
      · by_cases hu : strStarts "_" name = true
        · rw [if_pos hu] at h
          exact (ih.mp h) q hq
        · rw [if_neg hu] at h
          by_cases hm : name ∈ configFieldNames
          · rw [if_pos (by simpa using hm)] at h
            exact (ih.mp h) q hq
          · rw [if_neg (by simpa using hm)] at h
            exact absurd h (by simp)
    · intro h
      have hhead := h (name, v) (.inl rfl)
      by_cases hu : strStarts "_" name = true
      · rw [if_pos hu]
        exact ih.mpr fun q hq => h q (.inr hq)
      · rcases hhead with hh | hh
        · exact absurd hh hu
        · rw [if_neg hu, if_pos (by simpa using hh)]
          exact ih.mpr fun q hq => h q (.inr hq)

lemma assert_types_shape (ov : ConfigOverride) :
    _assert_config_types ov = .ok () ∨ _assert_config_types ov = .error .typeError := by
  induction ov with
  | nil => exact .inl rfl
  | cons p rest ih =>
    obtain ⟨name, v⟩ := p
    simp only [_assert_config_types]
    split
    · exact ih
    · split
      · split
        · exact ih
        · exact .inr rfl
      · exact ih

lemma assert_types_ok_iff (ov : ConfigOverride) :
    _assert_config_types ov = .ok () ↔
      ∀ p ∈ ov, strStarts "_" p.1 = true ∨ p.1 ∉ configFieldNames ∨ isBoolVal p.2 = true := by
  induction ov with
  | nil => simp [_assert_config_types]
  | cons p rest ih =>
    obtain ⟨name, v⟩ := p
    simp only [_assert_config_types, List.mem_cons]
    constructor
    · intro h q hq
      rcases hq with rfl | hq
      · by_cases hu : strStarts "_" name = true
        · exact .inl hu
        · rw [if_neg hu] at h
          by_cases hm : name ∈ configFieldNames
          · rw [if_pos (by simpa using hm)] at h
            by_cases hb : isBoolVal v = true
            · exact .inr (.inr hb)
            · rw [if_neg hb] at h
              exact absurd h (by simp)
          · exact .inr (.inl hm)
      · by_cases hu : strStarts "_" name = true
        · rw [if_pos hu] at h
          exact (ih.mp h) q hq
        · rw [if_neg hu] at h
          by_cases hm : name ∈ configFieldNames
          · rw [if_pos (by simpa using hm)] at h
            by_cases hb : isBoolVal v = true
            · rw [if_pos hb] at h
              exact (ih.mp h) q hq
            · rw [if_neg hb] at h
              exact absurd h (by simp)
          · rw [if_neg (by simpa using hm)] at h
            exact (ih.mp h) q hq
    · intro h
      have hhead := h (name, v) (.inl rfl)
      have hrest := ih.mpr fun q hq => h q (.inr hq)
      by_cases hu : strStarts "_" name = true
      · rw [if_pos hu]
        exact hrest
      · rw [if_neg hu]
        by_cases hm : name ∈ configFieldNames
        · rw [if_pos (by simpa using hm)]
          rcases hhead with hh | hh | hh
          · exact absurd hh hu
          · exact absurd hm hh
          · rw [if_pos hh]
            exact hrest
        · rw [if_neg (by simpa using hm)]
          exact hrest

/-! ## Claim C7. -/

/-- C7: configuration resolution returns the defaults unchanged when no
override is given; otherwise it raises `ValueError` for any override
attribute not in the default configuration's field set, raises `TypeError`
for any override attribute whose value's type does not match the declared
(`bool`) type, and otherwise yields an effective configuration whose lookup
returns the override's value where the override defines the attribute and
the default's value otherwise. -/
theorem C7_config_resolution :
    BaseConfig_override none = .ok defaultConfig ∧
    ∀ ov : ConfigOverride,
      ((∃ p ∈ ov, strStarts "_" p.1 = false ∧ p.1 ∉ configFieldNames) →
        BaseConfig_override (some ov) = .error .valueError) ∧
      ((∀ p ∈ ov, strStarts "_" p.1 = false → p.1 ∈ configFieldNames) →
       (∃ p ∈ ov, strStarts "_" p.1 = false ∧ isBoolVal p.2 = false) →
        BaseConfig_override (some ov) = .error .typeError) ∧
      ((∀ p ∈ ov, strStarts "_" p.1 = false → p.1 ∈ configFieldNames ∧ isBoolVal p.2 = true) →
        BaseConfig_override (some ov) = .ok (mkEffective ov) ∧
        ∀ n ∈ configFieldNames,
          (ovLookup ov n = none → cfgGet (mkEffective ov) n = cfgGet defaultConfig n) ∧
          (∀ b, ovLookup ov n = some (.bool b) → cfgGet (mkEffective ov) n = b)) := by
  refine ⟨rfl, fun ov => ⟨?_, ?_, ?_⟩⟩
  · rintro ⟨p, hp, hu, hm⟩
    have hnotok : _assert_config_fields ov ≠ .ok () := by
      intro hok
      rcases (assert_fields_ok_iff ov).mp hok p hp with hh | hh
      · rw [hu] at hh
        exact absurd hh (by simp)
      · exact hm hh
    rcases assert_fields_shape ov with hok | herr
    · exact absurd hok hnotok
    · simp only [BaseConfig_override, herr]
  · intro hall
    rintro ⟨p, hp, hu, hb⟩
    have hfok : _assert_config_fields ov = .ok () := by
      refine (assert_fields_ok_iff ov).mpr fun q hq => ?_
      by_cases hqu : strStarts "_" q.1 = true
      · exact .inl hqu
      · exact .inr (hall q hq (by simpa using hqu))
    have hnotok : _assert_config_types ov ≠ .ok () := by
      intro hok
      rcases (assert_types_ok_iff ov).mp hok p hp with hh | hh | hh
      · rw [hu] at hh
        exact absurd hh (by simp)
      · exact hh (hall p hp hu)
      · rw [hb] at hh
        exact absurd hh (by simp)
    rcases assert_types_shape ov with hok | herr
    · exact absurd hok hnotok
    · simp only [BaseConfig_override, hfok, herr]
  · intro hall
    have hfok : _assert_config_fields ov = .ok () := by
      refine (assert_fields_ok_iff ov).mpr fun q hq => ?_
      by_cases hqu : strStarts "_" q.1 = true
      · exact .inl hqu
      · exact .inr (hall q hq (by simpa using hqu)).1
    have htok : _assert_config_types ov = .ok () := by
      refine (assert_types_ok_iff ov).mpr fun q hq => ?_
      by_cases hqu : strStarts "_" q.1 = true
      · exact .inl hqu
      · exact .inr (.inr (hall q hq (by simpa using hqu)).2)
    refine ⟨by simp only [BaseConfig_override, hfok, htok], ?_⟩
    intro n hn
    have hcases : n = "strict" ∨ n = "filter" ∨ n = "ordered" ∨ n = "coerce" ∨
        n = "multiindex_strict" ∨ n = "multiindex_ordered" ∨
        n = "multiindex_sorted" ∨ n = "multiindex_unique" := by
      simpa [configFieldNames] using hn
    rcases hcases with rfl | rfl | rfl | rfl | rfl | rfl | rfl | rfl <;>
      exact ⟨fun hl => by simp only [cfgGet, mkEffective, ovBool, hl]; rfl,
        fun b hl => by simp only [cfgGet, mkEffective, ovBool, hl]⟩

/-- Witness for C7: the override `{filter = True}` is accepted; the effective
configuration's `filter` is the override's value and its `strict` falls back
to the default. -/
theorem C7_witness :
    BaseConfig_override (some [("filter", ConfigVal.bool true)])
      = .ok (mkEffective [("filter", ConfigVal.bool true)]) ∧
    cfgGet (mkEffective [("filter", ConfigVal.bool true)]) "filter" = true ∧
    cfgGet (mkEffective [("filter", ConfigVal.bool true)]) "strict"
      = cfgGet defaultConfig "strict" := by
  have h := (C7_config_resolution.2 [("filter", ConfigVal.bool true)]).2.2 (by decide)
  exact ⟨h.1, (h.2 "filter" (by decide)).2 true rfl, (h.2 "strict" (by decide)).1 rfl⟩

/-! ## Helper lemmas about `_validate_schema`'s index-name-mixing check. -/

/-- The index fields of a schema map, in declaration order. -/
def idxFields (sch : SchemaMap) : List (Option String × FieldInfo) :=
  sch.filter fun e => e.2.is_index

/-- Whether the `using_check_index_name` loop of `_validate_schema` raises,
given the length and conjunction of the flags accumulated so far. -/
def schemaErrCond (m : Nat) (allT : Bool) : SchemaMap → Bool
  | [] => false
  | (_, fi) :: rest =>
    if fi.is_index then
      if decide (1 < m + 1) && !(allT && fi.field.check_index_name) then true
      else schemaErrCond (m + 1) (allT && fi.field.check_index_name) rest
    else schemaErrCond m allT rest

lemma any_not_eq_not_all {α : Type} (p : α → Bool) (l : List α) :
    (l.any fun x => !p x) = !l.all p := by
  induction l with
  | nil => rfl
  | cons a l ih => simp [List.any_cons, List.all_cons, ih, Bool.not_and]

/-- A cons step of `idxFields`. -/
lemma idxFields_cons (nm : Option String) (fi : FieldInfo) (rest : SchemaMap) :
    idxFields ((nm, fi) :: rest) =
      if fi.is_index then (nm, fi) :: idxFields rest else idxFields rest := by
  simp [idxFields, List.filter_cons]

/-- The schema-sanity loop agrees with `schemaErrCond` when no entry can
trigger the regex-without-alias or string-check errors. -/
lemma validate_schema_loop_eq (sch : SchemaMap) :
    ∀ acc : List Bool,
    (∀ e ∈ sch, (e.2.field.regex && e.2.field.«alias».isNone) = false) →
    (∀ e ∈ sch, ((e.2.field.str_contains.isSome || e.2.field.str_endswith.isSome ||
        e.2.field.str_startswith.isSome) && !decide (e.2.type = PType.str)) = false) →
    _validate_schema_loop acc sch =
      (if schemaErrCond acc.length (acc.all id) sch then
        .error (.schemaDefinitionError "multi_index_name_check")
      else .ok ()) := by
  induction sch with
  | nil => intro acc h1 h2; rfl
  | cons e rest ih =>
    intro acc h1 h2
    obtain ⟨nm, fi⟩ := e
    have h1h := h1 (nm, fi) (List.mem_cons_self _ _)
    have h2h := h2 (nm, fi) (List.mem_cons_self _ _)
    have h1r : ∀ q ∈ rest, (q.2.field.regex && q.2.field.«alias».isNone) = false :=
      fun q hq => h1 q (List.mem_cons_of_mem _ hq)
    have h2r : ∀ q ∈ rest, ((q.2.field.str_contains.isSome || q.2.field.str_endswith.isSome ||
        q.2.field.str_startswith.isSome) && !decide (q.2.type = PType.str)) = false :=
      fun q hq => h2 q (List.mem_cons_of_mem _ hq)
    by_cases hidx : fi.is_index
    · simp only [_validate_schema_loop, schemaErrCond, hidx, if_true, Bool.true_and,
        List.length_append, List.length_cons, List.length_nil, Nat.zero_add,
        List.all_append, List.all_cons, List.all_nil, Bool.and_true, id]
      cases hcond : decide (1 < acc.length + 1) && !(acc.all id && fi.field.check_index_name)
      · simp only [Bool.false_eq_true, if_false, h1h, h2h,
          ih (acc ++ [fi.field.check_index_name]) h1r h2r, List.length_append,
          List.length_cons, List.length_nil, Nat.zero_add, List.all_append, List.all_cons,
          List.all_nil, Bool.and_true, id]
      · simp
    · simp only [_validate_schema_loop, schemaErrCond, hidx, if_false, Bool.false_and,
        Bool.false_eq_true, h1h, h2h, ih acc h1r h2r]

/-- Closed form of `schemaErrCond` once at least one index flag has been
accumulated: the loop raises iff there is a further index field and the
conjunction of all flags fails. -/
lemma schemaErrCond_pos (sch : SchemaMap) :
    ∀ m : Nat, ∀ allT : Bool, 1 ≤ m →
    schemaErrCond m allT sch =
      (!(allT && (idxFields sch).all fun e => e.2.field.check_index_name) &&
        decide (1 ≤ (idxFields sch).length)) := by
  induction sch with
  | nil => intro m allT hm; simp [idxFields, schemaErrCond]
  | cons e rest ih =>
    intro m allT hm
    obtain ⟨nm, fi⟩ := e
    by_cases hidx : fi.is_index
    · have hd : decide (1 < m + 1) = true := decide_eq_true (by omega)
      rw [idxFields_cons, if_pos hidx]
      simp only [schemaErrCond, hidx, if_true, hd, Bool.true_and, List.all_cons,
        List.length_cons]
      cases hAT : allT && fi.field.check_index_name
      · simp only [Bool.not_false, if_true]
        have hfalse : (allT && (fi.field.check_index_name &&
            (idxFields rest).all fun e => e.2.field.check_index_name)) = false := by
          rw [← Bool.and_assoc, hAT, Bool.false_and]
        rw [hfalse, Bool.not_false, Bool.true_and]
        symm
        rw [decide_eq_true_eq]
        omega
      · simp only [Bool.not_true, Bool.false_eq_true, if_false]
        rw [ih (m + 1) true (by omega)]
        rw [← Bool.and_assoc, hAT, Bool.true_and]
        cases hall : (idxFields rest).all fun e => e.2.field.check_index_name
        · have hlen : 1 ≤ (idxFields rest).length := by
            rcases hfr : idxFields rest with _ | ⟨q, qs⟩
            · rw [hfr] at hall
              simp at hall
            · simp [hfr]
          rw [decide_eq_true hlen,
            decide_eq_true (show 1 ≤ (idxFields rest).length + 1 by omega)]
        · simp
    · rw [idxFields_cons, if_neg hidx]
      simp only [schemaErrCond, hidx, if_false]
      exact ih m allT hm

/-- Closed form of `schemaErrCond` from the initial state: the loop raises
iff the schema has at least two index fields and some index field clears
`check_index_name`. -/
lemma schemaErrCond_zero (sch : SchemaMap) :
    schemaErrCond 0 true sch =
      (decide (2 ≤ (idxFields sch).length) &&
        ((idxFields sch).any fun e => !e.2.field.check_index_name)) := by
  induction sch with
  | nil => simp [schemaErrCond, idxFields]
  | cons e rest ih =>
    obtain ⟨nm, fi⟩ := e
    by_cases hidx : fi.is_index
    · have hd : decide (1 < 0 + 1) = false := by decide
      rw [idxFields_cons, if_pos hidx]
      simp only [schemaErrCond, hidx, if_true, hd, Bool.false_and, Bool.false_eq_true,
        if_false, Bool.true_and]
      rw [schemaErrCond_pos rest 1 fi.field.check_index_name (by omega)]
      simp only [List.all_cons, List.length_cons, List.any_cons]
      rw [any_not_eq_not_all, Bool.not_and]
      have h2d : decide (2 ≤ (idxFields rest).length + 1) =
          decide (1 ≤ (idxFields rest).length) := by
        rcases Nat.lt_or_ge (idxFields rest).length 1 with h | h
        · have h0 : (idxFields rest).length = 0 := by omega
          rw [h0]
          decide
        · rw [decide_eq_true (by omega : (2:ℕ) ≤ (idxFields rest).length + 1),
            decide_eq_true (by omega : (1:ℕ) ≤ (idxFields rest).length)]
      rw [h2d, Bool.and_comm]
    · rw [idxFields_cons, if_neg hidx]
      simp only [schemaErrCond, hidx, if_false]
      exact ih

/-! ## Claim C4 (corrected).

The claim says a schema in which *all* index fields set
`check_index_name=false` is accepted.  The code rejects it: the loop raises
as soon as the accumulated flag list has length two or more and is not
all-true, which happens for *any* schema with two or more index fields of
which at least one (including all) sets `check_index_name=false`.  The
source's own error message agrees ("multiple indices where one or more have
check_index_name=False"). -/

def schC4ce : SchemaMap :=
  [(some "i1", ⟨.int, false, true, { check_index_name := false }⟩),
   (some "i2", ⟨.int, false, true, { check_index_name := false }⟩)]

/-- Counterexample to C4 as stated: a schema whose two index fields *both*
set `check_index_name=false` — accepted according to the claim — is rejected
by `_validate_schema` with `SchemaDefinitionError`. -/
theorem C4_counterexample :
    _validate_schema schC4ce = .error (.schemaDefinitionError "multi_index_name_check") := rfl

/-- C4 amended: for schemas free of the other two sanity errors (no
`regex` without alias, no string check on a non-`str` field), schema sanity
checking raises `SchemaDefinitionError` *exactly when* the schema has two or
more index fields and at least one index field (possibly all) sets
`check_index_name=false`; schemas with at most one index field, or whose
index fields all keep `check_index_name=true`, are accepted. -/
theorem C4_amended_index_name_mixing (sch : SchemaMap)
    (h1 : ∀ e ∈ sch, (e.2.field.regex && e.2.field.«alias».isNone) = false)
    (h2 : ∀ e ∈ sch, ((e.2.field.str_contains.isSome || e.2.field.str_endswith.isSome ||
        e.2.field.str_startswith.isSome) && !decide (e.2.type = PType.str)) = false) :
    _validate_schema sch =
      (if decide (2 ≤ (idxFields sch).length) &&
          ((idxFields sch).any fun e => !e.2.field.check_index_name) then
        .error (.schemaDefinitionError "multi_index_name_check")
      else .ok ()) := by
  unfold _validate_schema
  rw [validate_schema_loop_eq sch [] h1 h2]
  simp only [List.length_nil, List.all_nil, schemaErrCond_zero]

/-- Witness for the amended C4, at the *mixed* schema the original claim
also covers: two index fields, one with `check_index_name=false`, rejected. -/
theorem C4_witness :
    _validate_schema [(some "i1", ⟨.int, false, true, {}⟩),
        (some "i2", ⟨.int, false, true, { check_index_name := false }⟩)] =
      .error (.schemaDefinitionError "multi_index_name_check") := by
  have h := C4_amended_index_name_mixing
    [(some "i1", ⟨.int, false, true, {}⟩),
     (some "i2", ⟨.int, false, true, { check_index_name := false }⟩)]
    (by decide) (by decide)
  exact h.trans rfl

/-! ## Claim C8: overlapping regex fields. -/

/-- The truthiness of `re.match(a, name)` over an optional name, as
`matchedNamesRegex` computes it for non-`None` names. -/
def optMatch (a : String) : Option String → Bool
  | some s => reMatch a s
  | none => false

lemma matchedNamesRegex_all_some (a : String) :
    ∀ names : List (Option String), (∀ n ∈ names, n ≠ none) →
    matchedNamesRegex a names = .ok (names.filter (optMatch a)) := by
  intro names
  induction names with
  | nil => intro h; rfl
  | cons n rest ih =>
    intro h
    cases n with
    | none => exact absurd rfl (h none (List.mem_cons_self _ _))
    | some s =>
      simp only [matchedNamesRegex, ih fun q hq => h q (List.mem_cons_of_mem _ hq),
        List.filter_cons]
      rfl

/-- The two-regex-field schema family of claim C8: two required column
fields with regex aliases `p1` and `p2`, each also carrying a `ge`
constraint (so that value checks exist to be skipped). -/
def schC8 (p1 p2 : String) : SchemaMap :=
  [(some "f1", ⟨.int, false, false, { ge := some (.int 0), «alias» := some p1, regex := true }⟩),
   (some "f2", ⟨.int, false, false, { ge := some (.int 0), «alias» := some p2, regex := true }⟩)]

/-- C8: for a schema with two regex-aliased fields whose patterns match
overlapping subsets of the table's column names, `validate` raises
`SchemaDefinitionError` during name resolution.  The table — and in
particular every cell value — is universally quantified, and the fields
carry `ge` constraints: the result is the schema-definition error for every
assignment of values, so no constraint predicate outcome can influence (or
precede) it. -/
theorem C8_regex_overlap_schema_error (p1 p2 : String) (df : DataFrame)
    (hns : ∀ n ∈ df.colNames, n ≠ none)
    (hidx : df.index.names = [none])
    (hov : ∃ n ∈ df.colNames, optMatch p1 n = true ∧ optMatch p2 n = true) :
    validate (schC8 p1 p2) [] none df = .error (.schemaDefinitionError "regex_overlap") := by
  obtain ⟨n, hn, hp1, hp2⟩ := hov
  have hmem1 : n ∈ df.colNames.filter (optMatch p1) := List.mem_filter.mpr ⟨hn, hp1⟩
  have hmem2 : n ∈ df.colNames.filter (optMatch p2) := List.mem_filter.mpr ⟨hn, hp2⟩
  have hm1 := matchedNamesRegex_all_some p1 df.colNames hns
  have hm2 := matchedNamesRegex_all_some p2 df.colNames hns
  have hne1 : (df.colNames.filter (optMatch p1)).isEmpty = false := by
    rcases hm : df.colNames.filter (optMatch p1) with _ | ⟨x, xs⟩
    · rw [hm] at hmem1
      exact absurd hmem1 (List.not_mem_nil _)
    · rfl
  have hne2 : (df.colNames.filter (optMatch p2)).isEmpty = false := by
    rcases hm : df.colNames.filter (optMatch p2) with _ | ⟨x, xs⟩
    · rw [hm] at hmem2
      exact absurd hmem2 (List.not_mem_nil _)
    · rfl
  have hov2 : ((df.colNames.filter (optMatch p2)).any
      fun q => decide (q ∈ [] ++ df.colNames.filter (optMatch p1))) = true :=
    List.any_eq_true.mpr ⟨n, hmem2, by simpa using hmem1⟩
  have hsel : _select_matching_names (schC8 p1 p2) df.colNames false =
      .error (.schemaDefinitionError "regex_overlap") := by
    simp only [_select_matching_names, _select_matching_names_loop, schC8, hm1, hm2,
      Bool.false_and, Bool.true_and, Bool.and_false, Bool.and_true, Bool.not_false,
      hne1, hne2, Bool.false_eq_true, if_false]
    simp only [show ((df.colNames.filter (optMatch p1)).any
        fun q => decide (q ∈ ([] : List (Option String)))) = false by simp,
      Bool.false_eq_true, if_false, hov2, if_true]
  have hstrict : miStrictStep defaultConfig [] (some df) = .ok () := by
    have hu : miUnexpected df.index.names [] = false := by
      rw [hidx]
      rfl
    simp only [miStrictStep, pyDfAttr, hu]
    rfl
  have hmi : _validate_multiindex (schC8 p1 p2) defaultConfig df =
      .ok (schC8 p1 p2, some df) := by
    simp only [_validate_multiindex,
      show _select_matching_names (schC8 p1 p2) df.index.names true =
        .ok (schC8 p1 p2, []) from rfl,
      show miFilterStep defaultConfig [] df = .ok (some df) from rfl, hstrict,
      show miOrderedStep defaultConfig [] (some df) = .ok () from rfl,
      show miSortedStep defaultConfig (some df) = .ok () from rfl,
      show miUniqueStep defaultConfig (some df) = .ok () from rfl]
  have hcols : _validate_columns (schC8 p1 p2) defaultConfig (some df) =
      .error (.schemaDefinitionError "regex_overlap") := by
    simp only [_validate_columns, pyDfAttr, hsel]
  simp only [validate, show BaseConfig_override none = .ok defaultConfig from rfl,
    show _validate_schema (schC8 p1 p2) = .ok () from rfl, hmi, hcols]

/-- Witness for C8: patterns `"ab"` and `"a"` both match column `"abc"`
(whose value `-5` even violates the `ge=0` constraints); `validate` raises
the schema-definition error, and no value-check error is reported. -/
theorem C8_witness :
    validate (schC8 "ab" "a") []
      none ⟨[⟨some "abc", .series, .int64, [.int (-5)]⟩],
        ⟨[⟨none, .rangeIndex, .int64, [.int 0]⟩]⟩⟩ =
      .error (.schemaDefinitionError "regex_overlap") := by
  exact C8_regex_overlap_schema_error "ab" "a"
    ⟨[⟨some "abc", .series, .int64, [.int (-5)]⟩], ⟨[⟨none, .rangeIndex, .int64, [.int 0]⟩]⟩⟩
    (by decide) rfl ⟨some "abc", by decide, by decide, by decide⟩

end Pandabear
